import Mathlib

/-!
# Verification of the dota-rest request/response pipeline

A shallow embedding of the `ayu-sh-kr/dota-rest` fluent HTTP client library:
`RestClient` (client factory), `RestRequestBuilder` (request spec builder),
`RestRequestRetriever` (dispatcher), `RestUtils` (URI assembly and transport
invocation) and `RestResponseResolver` (response projection).

JavaScript objects used as header maps are modelled as insertion-ordered
association lists over `String` with exact (case-sensitive) keys;
`URLSearchParams` is modelled as an insertion-ordered multi-map; JSON values
are modelled by the `JsValue` inductive; promises/futures that have settled
are modelled by `Except String`; the external fetch transport is a parameter.
-/

set_option linter.unusedVariables false

/-- Hex digit (uppercase), used by the form-urlencoded percent encoder. -/
def hexDigit (n : Nat) : Char :=
  if n < 10 then Char.ofNat (48 + n) else Char.ofNat (55 + n)

/-- Hex digit (lowercase), used by the JSON string escaper. -/
def hexDigitLower (n : Nat) : Char :=
  if n < 10 then Char.ofNat (48 + n) else Char.ofNat (87 + n)

/-- UTF-8 encoding of a single character, as byte values. -/
def utf8Bytes (c : Char) : List Nat :=
  let n := c.toNat
  if n < 0x80 then [n]
  else if n < 0x800 then [0xC0 + n / 0x40, 0x80 + n % 0x40]
  else if n < 0x10000 then
    [0xE0 + n / 0x1000, 0x80 + (n / 0x40) % 0x40, 0x80 + n % 0x40]
  else
    [0xF0 + n / 0x40000, 0x80 + (n / 0x1000) % 0x40,
     0x80 + (n / 0x40) % 0x40, 0x80 + n % 0x40]

/-- Bytes kept verbatim by the `application/x-www-form-urlencoded` serializer:
`*`, `-`, `.`, `_`, ASCII digits and letters. -/
def formUrlKeep (b : Nat) : Bool :=
  (48 ≤ b && b ≤ 57) || (65 ≤ b && b ≤ 90) || (97 ≤ b && b ≤ 122) ||
  b == 42 || b == 45 || b == 46 || b == 95

/-- `%XX` percent-escape of a byte. -/
def percentByte (b : Nat) : String :=
  String.mk ['%', hexDigit (b / 16 % 16), hexDigit (b % 16)]

/-- Serialization of one byte under `application/x-www-form-urlencoded`:
space becomes `+`, safe bytes stay, the rest are percent-escaped. -/
def formUrlEncodeByte (b : Nat) : String :=
  if b == 32 then "+"
  else if formUrlKeep b then String.mk [Char.ofNat b]
  else percentByte b

/-- Percent-encoding of a string as done by `URLSearchParams.toString()`
(WHATWG `application/x-www-form-urlencoded` serializer over UTF-8 bytes). -/
def formUrlEncode (s : String) : String :=
  String.join ((s.toList.flatMap utf8Bytes).map formUrlEncodeByte)

/-- JSON values (`any` data handled by the library: request bodies, parsed
response payloads, converter inputs and outputs). -/
inductive JsValue where
  | vNull : JsValue
  | vBool : Bool → JsValue
  | vNum : Int → JsValue
  | vStr : String → JsValue
  | vArr : List JsValue → JsValue
  | vObj : List (String × JsValue) → JsValue
deriving Repr

/-- JSON escaping of one character, as `JSON.stringify` does it. -/
def jsonEscapeChar (c : Char) : String :=
  if c == '"' then "\\\""
  else if c == '\\' then "\\\\"
  else if c == Char.ofNat 8 then "\\b"
  else if c == Char.ofNat 9 then "\\t"
  else if c == Char.ofNat 10 then "\\n"
  else if c == Char.ofNat 12 then "\\f"
  else if c == Char.ofNat 13 then "\\r"
  else if c.toNat < 32 then
    "\\u00" ++ String.mk [hexDigitLower (c.toNat / 16), hexDigitLower (c.toNat % 16)]
  else String.mk [c]

/-- A JSON string literal with quotes, as `JSON.stringify` renders strings. -/
def jsQuote (s : String) : String :=
  "\"" ++ String.join (s.toList.map jsonEscapeChar) ++ "\""

mutual

/-- `JSON.stringify` on a `JsValue`. -/
def stringify : JsValue → String
  | .vNull => "null"
  | .vBool b => if b then "true" else "false"
  | .vNum n => toString n
  | .vStr s => jsQuote s
  | .vArr xs => "[" ++ stringifyItems xs ++ "]"
  | .vObj fs => "\x7b" ++ stringifyFields fs ++ "\x7d"

/-- Comma-separated serialization of array items. -/
def stringifyItems : List JsValue → String
  | [] => ""
  | [x] => stringify x
  | x :: y :: xs => stringify x ++ "," ++ stringifyItems (y :: xs)

/-- Comma-separated serialization of object fields. -/
def stringifyFields : List (String × JsValue) → String
  | [] => ""
  | [(k, v)] => jsQuote k ++ ":" ++ stringify v
  | (k, v) :: f :: fs => jsQuote k ++ ":" ++ stringify v ++ "," ++ stringifyFields (f :: fs)

end

/-- JavaScript truthiness of a `JsValue` (`undefined` is handled separately
as `Option.none` by callers): `null`, `false`, `0` and `""` are falsy. -/
def jsTruthy : JsValue → Bool
  | .vNull => false
  | .vBool b => b
  | .vNum n => n != 0
  | .vStr s => !s.isEmpty
  | .vArr _ => true
  | .vObj _ => true

/-- Truthiness of an optional value (`none` models the absent/`undefined` case). -/
def jsTruthyOpt : Option JsValue → Bool
  | none => false
  | some v => jsTruthy v

/-- Truthiness of an optional string (`baseURI?: string`): absent and `""` are falsy. -/
def strTruthy : Option String → Bool
  | none => false
  | some s => !s.isEmpty

/-- A JavaScript object used as a header map: insertion-ordered key/value
pairs, keys compared as exact case-sensitive strings. -/
abbrev Header := List (String × String)

/-- JavaScript property assignment `m[k] = v`: updates the value in place if
the key is present, otherwise appends the pair at the end. -/
def objSet (m : Header) (k v : String) : Header :=
  if m.any (fun p => decide (p.1 = k)) then
    m.map (fun p => if p.1 = k then (k, v) else p)
  else m ++ [(k, v)]

/-- JavaScript property read `m[k]`: the value stored under the exact key `k`
(association lists built through `objSet`/`objSpread` keep keys unique, so
first match is the match). -/
def objGet (m : Header) (k : String) : Option String :=
  match m with
  | [] => none
  | p :: ps => if p.1 = k then some p.2 else objGet ps k

/-- JavaScript object spread `\x7b...a, ...b\x7d`: entries of `b` are assigned
over a copy of `a` in order, so `b` wins on exact key collision. -/
def objSpread (a b : Header) : Header :=
  b.foldl (fun m p => objSet m p.1 p.2) a

/-- `URLSearchParams.toString()`: pairs serialized `key=value`, percent-encoded
and joined by `&` in insertion order, repeated keys kept as separate pairs. -/
def paramsToString (ps : List (String × String)) : String :=
  String.intercalate "&" (ps.map (fun p => formUrlEncode p.1 ++ "=" ++ formUrlEncode p.2))

namespace RestUtils

/-- `RestUtils.createURI` (src/RestUtils.ts): if the base URI is truthy,
concatenate base and path; append `?` and the serialized query parameters only
when the parameter set is present and non-empty. -/
def createURI (baseURI : Option String) (uri : String)
    (params : Option (List (String × String))) : String :=
  if strTruthy baseURI then
    let url := baseURI.getD "" ++ uri
    match params with
    | some ps => if ps.length > 0 then url ++ "?" ++ paramsToString ps else url
    | none => url
  else
    match params with
    | some ps => if ps.length > 0 then uri ++ "?" ++ paramsToString ps else uri
    | none => uri

end RestUtils

/-- ASCII lowercasing of one character (header names compare case-insensitively). -/
def asciiLower (c : Char) : Char :=
  if 65 ≤ c.toNat && c.toNat ≤ 90 then Char.ofNat (c.toNat + 32) else c

/-- ASCII lowercasing of a string. -/
def lowerStr (s : String) : String := String.mk (s.toList.map asciiLower)

/-- `headers.get(name)` of a fetch `Headers` object: case-insensitive name
lookup; all matching values are combined with `", "`; `null` when absent. -/
def headersGet (hs : List (String × String)) (name : String) : Option String :=
  match hs.filter (fun p => lowerStr p.1 == lowerStr name) with
  | [] => none
  | ms => some (String.intercalate ", " (ms.map (fun p => p.2)))

/-- Whether `pat` occurs at the head of `l`. -/
def leadsWith : List Char → List Char → Bool
  | [], _ => true
  | _ :: _, [] => false
  | a :: as, b :: bs => a == b && leadsWith as bs

/-- Whether `pat` occurs as a contiguous run inside `l`. -/
def containsSubList (pat : List Char) : List Char → Bool
  | [] => pat.isEmpty
  | c :: cs => leadsWith pat (c :: cs) || containsSubList pat cs

/-- JavaScript `s.includes(sub)`: contiguous substring containment. -/
def strIncludes (s sub : String) : Bool := containsSubList sub.toList s.toList

/-- The raw transport (fetch) response as consumed by the library. The
platform body-reading methods are modelled by fields: `jsonResult` is what
`response.json()` settles to (it rejects on an invalid JSON body) and
`textResult` is what `response.text()` resolves to. -/
structure FetchResponse where
  status : Nat
  headers : List (String × String)
  rtype : String
  statusText : String
  redirected : Bool
  jsonResult : Except String JsValue
  textResult : String

/-- A response inspector (`ResponseHandler` in Types.ts): runs on the raw
response for side effects and may throw (modelled by `Except.error`). -/
abbrev ResponseHandler := FetchResponse → Except String Unit

/-- A `ResponseConverter` (Types.ts): transforms the parsed JSON payload. -/
abbrev ResponseConverter := JsValue → JsValue

/-- `ResponseEntity` (Types.ts): status metadata plus the decoded payload.
`data` is definite-assignment declared in the source (`data!: T`), so it is
`none` right after `create` and assigned by `toEntity`. -/
structure ResponseEntity where
  status : Nat
  headers : List (String × String)
  rtype : String
  statusText : String
  isRedirected : Bool
  data : Option JsValue

/-- `ResponseEntity.create(response)`: copies status metadata, no data yet. -/
def ResponseEntity.create (r : FetchResponse) : ResponseEntity :=
  { status := r.status, headers := r.headers, rtype := r.rtype,
    statusText := FetchResponse.statusText r, isRedirected := r.redirected,
    data := none }

/-- `ResponseVoid` (Types.ts): status metadata with no payload. -/
structure ResponseVoid where
  status : Nat
  headers : List (String × String)
  rtype : String
  statusText : String
  isRedirected : Bool

/-- `ResponseVoid.create(response)`. -/
def ResponseVoid.create (r : FetchResponse) : ResponseVoid :=
  { status := r.status, headers := r.headers, rtype := r.rtype,
    statusText := FetchResponse.statusText r, isRedirected := r.redirected }

/-- `RestResponseResolver` (ResponseResolver.ts): holds the memoized pending
response (already settled here, since terminal methods only await it), the
optional inspector and the optional converter. -/
structure RestResponseResolver where
  response : Except String FetchResponse
  handler : Option ResponseHandler
  converter : Option ResponseConverter

namespace RestResponseResolver

/-- Fluent `converter(fn)` setter. -/
def setConverter (res : RestResponseResolver) (f : ResponseConverter) : RestResponseResolver :=
  { res with converter := some f }

/-- Fluent `handler(fn)` setter: overrides the inspector for this resolver. -/
def setHandler (res : RestResponseResolver) (h : ResponseHandler) : RestResponseResolver :=
  { res with handler := some h }

/-- `if (this._handler) \x7b this._handler(response) \x7d` — the inspector
invocation; the first component is the trace of raw responses the inspector
was invoked with (the side effect), the second its outcome. -/
def invokeHandler (h : Option ResponseHandler) (r : FetchResponse) :
    List FetchResponse × Except String Unit :=
  match h with
  | none => ([], .ok ())
  | some f => ([r], f r)

/-- `toEntity()` (ResponseResolver.ts): await the pending response, invoke the
inspector if set, then decode by `Content-Type`: a header containing
`application/json` routes through `json()` (converter applied when set),
anything else assigns the body text to `data`. Returns the inspector
invocation trace paired with the settled outcome of the returned promise. -/
def toEntity (res : RestResponseResolver) :
    List FetchResponse × Except String ResponseEntity :=
  match res.response with
  | .error e => ([], .error e)
  | .ok r =>
    let inv := invokeHandler res.handler r
    match inv.2 with
    | .error e => (inv.1, .error e)
    | .ok _ =>
      let entity := ResponseEntity.create r
      match headersGet r.headers "Content-Type" with
      | some ct =>
        if strIncludes ct "application/json" then
          match r.jsonResult with
          | .error e => (inv.1, .error e)
          | .ok json =>
            match res.converter with
            | some f => (inv.1, .ok { entity with data := some (f json) })
            | none => (inv.1, .ok { entity with data := some json })
        else (inv.1, .ok { entity with data := some (.vStr r.textResult) })
      | none => (inv.1, .ok { entity with data := some (.vStr r.textResult) })

/-- `toResponse()` (ResponseResolver.ts): await, invoke inspector if set,
return the raw response untouched. -/
def toResponse (res : RestResponseResolver) :
    List FetchResponse × Except String FetchResponse :=
  match res.response with
  | .error e => ([], .error e)
  | .ok r =>
    let inv := invokeHandler res.handler r
    match inv.2 with
    | .error e => (inv.1, .error e)
    | .ok _ => (inv.1, .ok r)

/-- `toVoid()` (ResponseResolver.ts): await, invoke inspector if set, return
the status-only projection; the body is not read. -/
def toVoid (res : RestResponseResolver) :
    List FetchResponse × Except String ResponseVoid :=
  match res.response with
  | .error e => ([], .error e)
  | .ok r =>
    let inv := invokeHandler res.handler r
    match inv.2 with
    | .error e => (inv.1, .error e)
    | .ok _ => (inv.1, .ok (ResponseVoid.create r))

end RestResponseResolver

/-- HTTP verbs supported by the client (`HttpMethod` in Types.ts). -/
inductive HttpMethod where
  | GET | POST | PUT | PATCH | DELETE
deriving Repr, DecidableEq

/-- `RequestSetup` (Types.ts): the configuration a `RestClient` verb method
hands to a fresh `RestRequestBuilder`. -/
structure RequestSetup where
  method : HttpMethod
  baseUri : Option String
  headers : Option Header
  timeout : Nat
  handler : Option ResponseHandler

/-- `RestClientConfig` (RestClient.ts): the immutable client configuration
produced by the client builder (`timout` keeps the source's spelling). -/
structure RestClientConfig where
  baseUrl : Option String
  headers : Option Header
  timout : Nat
  handler : Option ResponseHandler

namespace RestClient

/-- The header pair injected for body-carrying verbs. -/
def contentTypeJson : String × String := ("Content-type", "application/json")

/-- `RestClient.post`: seeds `\x7b'Content-type': 'application/json',
...this.config.headers\x7d` (client defaults spread after the injected pair),
the client base URL, timeout and inspector. -/
def post (c : RestClientConfig) : RequestSetup :=
  { method := .POST,
    headers := some (objSpread [contentTypeJson] (c.headers.getD [])),
    baseUri := c.baseUrl, timeout := c.timout, handler := c.handler }

/-- `RestClient.get`: seeds `\x7b...this.config.headers\x7d` only. -/
def get (c : RestClientConfig) : RequestSetup :=
  { method := .GET,
    headers := some (objSpread [] (c.headers.getD [])),
    baseUri := c.baseUrl, timeout := c.timout, handler := c.handler }

/-- `RestClient.patch`: like `post` with verb PATCH. -/
def patch (c : RestClientConfig) : RequestSetup :=
  { method := .PATCH,
    headers := some (objSpread [contentTypeJson] (c.headers.getD [])),
    baseUri := c.baseUrl, timeout := c.timout, handler := c.handler }

/-- `RestClient.put`: like `post` with verb PUT. -/
def put (c : RestClientConfig) : RequestSetup :=
  { method := .PUT,
    headers := some (objSpread [contentTypeJson] (c.headers.getD [])),
    baseUri := c.baseUrl, timeout := c.timout, handler := c.handler }

/-- `RestClient.delete`: seeds `\x7b...this.config.headers\x7d` only. -/
def delete (c : RestClientConfig) : RequestSetup :=
  { method := .DELETE,
    headers := some (objSpread [] (c.headers.getD [])),
    baseUri := c.baseUrl, timeout := c.timout, handler := c.handler }

/-- The seeded request headers of a verb method, as a function of the verb:
POST/PUT/PATCH inject `Content-type: application/json` before spreading the
client defaults; GET/DELETE spread the client defaults alone. -/
def verbHeaders (m : HttpMethod) (configHeaders : Header) : Header :=
  match m with
  | .POST | .PUT | .PATCH => objSpread [contentTypeJson] configHeaders
  | .GET | .DELETE => objSpread [] configHeaders

end RestClient

/-- `RestRequestBuilder` (src/RequestBuilder.ts): the mutable request spec.
Field names mirror the source's private fields; `_uri` is declared with a
definite-assignment assertion in the source (`_uri!: string`), so it is
modelled with initial value `""` and must be set by `uri()` before dispatch. -/
structure RestRequestBuilder where
  _baseUri : String
  _uri : String
  _defaultHeaders : Header
  method : HttpMethod
  _timeout : Nat
  _headers : Header
  _params : List (String × String)
  _body : Option JsValue
  _handler : Option ResponseHandler

namespace RestRequestBuilder

/-- The constructor: `_baseUri = setup.baseUri || ''`,
`_defaultHeaders = setup.headers || \x7b\x7d`, fresh empty headers and params. -/
def create (setup : RequestSetup) : RestRequestBuilder :=
  { _baseUri := setup.baseUri.getD "",
    _uri := "",
    _defaultHeaders := setup.headers.getD [],
    method := setup.method,
    _timeout := setup.timeout,
    _headers := [],
    _params := [],
    _body := none,
    _handler := setup.handler }

/-- `baseURI(baseURI)` setter. -/
def baseURI (b : RestRequestBuilder) (s : String) : RestRequestBuilder :=
  { b with _baseUri := s }

/-- `uri(uri)` setter. -/
def uri (b : RestRequestBuilder) (u : String) : RestRequestBuilder :=
  { b with _uri := u }

/-- `header(key, value)`: single assignment `this._headers[key] = value`. -/
def header (b : RestRequestBuilder) (key value : String) : RestRequestBuilder :=
  { b with _headers := objSet b._headers key value }

/-- `headers(header)`: bulk merge `\x7b...this._headers, ...header\x7d`. -/
def headers (b : RestRequestBuilder) (h : Header) : RestRequestBuilder :=
  { b with _headers := objSpread b._headers h }

/-- `param(key, value)`: appended to the multi-map, repeated keys kept. -/
def param (b : RestRequestBuilder) (key value : String) : RestRequestBuilder :=
  { b with _params := b._params ++ [(key, value)] }

/-- `params(params)`: replaces the whole parameter set (the source copies via
`new URLSearchParams(params.toString())`, preserving pairs and order). -/
def params (b : RestRequestBuilder) (ps : List (String × String)) : RestRequestBuilder :=
  { b with _params := ps }

/-- `timeout(timeout)` setter. -/
def timeout (b : RestRequestBuilder) (t : Nat) : RestRequestBuilder :=
  { b with _timeout := t }

/-- `body(item)`: stored as-is, serialized only at dispatch. -/
def body (b : RestRequestBuilder) (item : Option JsValue) : RestRequestBuilder :=
  { b with _body := item }

end RestRequestBuilder

/-- `HttpRequestBody` (RestUtils.ts): the argument object that
`RestRequestRetriever.retrieve` assembles for `RestUtils.performFetch`. -/
structure HttpRequestBody where
  uri : String
  method : HttpMethod
  headers : Option Header
  timeout : Nat
  body : Option String

/-- The `RequestInit` options object handed to the platform `fetch`. -/
structure RequestInitJs where
  method : HttpMethod
  headers : Option Header
  body : Option String

/-- The external fetch transport: maps the target URI and options to the
settled outcome of the returned promise. -/
abbrev Transport := String → RequestInitJs → Except String FetchResponse

namespace RestUtils

/-- The `RequestInit` construction inside `RestUtils.performFetch`:
`method` always; `headers` attached when provided (a present JS object is
truthy, even when empty); `body` attached only when the serialized string is
truthy (non-empty). -/
def buildRequestInit (rb : HttpRequestBody) : RequestInitJs :=
  { method := rb.method,
    headers := rb.headers,
    body := match rb.body with
      | some s => if s.isEmpty then none else some s
      | none => none }

/-- `RestUtils.performFetch`: builds the init and issues the platform fetch.
The second component counts transport invocations performed by this call. -/
def performFetch (rb : HttpRequestBody) (transport : Transport) :
    Except String FetchResponse × Nat :=
  (transport rb.uri (buildRequestInit rb), 1)

end RestUtils

namespace RestRequestRetriever

/-- The `HttpRequestBody` assembled by `RestRequestRetriever.retrieve`
(RequestRetriever.ts): URI from base/path/params, merged headers
`\x7b...builder.getDefaultHeaders(), ...builder.getHeaders()\x7d`, and a JSON
body only when `builder.getBody()` is truthy. -/
def requestBodyOf (b : RestRequestBuilder) : HttpRequestBody :=
  { uri := RestUtils.createURI (some b._baseUri) b._uri (some b._params),
    method := b.method,
    headers := some (objSpread b._defaultHeaders b._headers),
    timeout := b._timeout,
    body := match b._body with
      | some v => if jsTruthy v then some (stringify v) else none
      | none => none }

/-- `RestRequestRetriever.retrieve`: performs the fetch once and wraps the
pending response in a fresh `RestResponseResolver` carrying the retriever's
inspector. The second component counts transport invocations. -/
def retrieve (handler : Option ResponseHandler) (b : RestRequestBuilder)
    (transport : Transport) : RestResponseResolver × Nat :=
  let rb := requestBodyOf b
  let out := RestUtils.performFetch rb transport
  ({ response := out.1, handler := handler, converter := none }, out.2)

end RestRequestRetriever

/-- `RestRequestBuilder.retrieve()` (src/RequestBuilder.ts): constructs a
`RestRequestRetriever` with the builder's inspector and delegates to it. -/
def RestRequestBuilder.retrieve (b : RestRequestBuilder) (transport : Transport) :
    RestResponseResolver × Nat :=
  RestRequestRetriever.retrieve b._handler b transport

/-- The behaviour of the underlying transport call, for timeout analysis:
`settleAt = some (t, out)` means the call left alone would settle `t`
milliseconds after dispatch with outcome `out`; `none` means it never settles. -/
structure TransportBehavior where
  settleAt : Option (Nat × Except String FetchResponse)

/-- The observable outcome of one dispatched request under the timeout
mechanism: the settled result of the returned future (`none` when it never
settles), whether the cancellation token's signal was attached to the
transport call, when the deferred cancellation fired, and when it was
cleared. -/
structure FetchRun where
  result : Option (Except String FetchResponse)
  signalAttached : Bool
  abortFiredAt : Option Nat
  timerClearedAt : Option Nat

/-- Modelled from the spec: the current revision of `RestUtils.performFetch`
(the one exporting `HttpRequestBody` with a `timeout` field, which
`RestRequestRetriever` imports and whose tests assert a
`signal: expect.any(AbortSignal)` option on every fetch call) is not present
under `src/` — `src/src/RestUtils.ts` is an earlier revision without timeout
support. Modelled from spec §4.3/§5: a cancellation token is created and its
signal attached to the transport call; if a timeout is configured, a deferred
cancellation fires the token after `timeout` milliseconds unless the call has
settled first, making the pending future reject; the deferred cancellation is
cleared unconditionally once the call settles, success or failure.
`timeout = 0` models the JS-falsy "no timeout configured" case. -/
def RestUtils.timedFetch (timeout : Nat) (tb : TransportBehavior) : FetchRun :=
  if timeout == 0 then
    { result := tb.settleAt.map (fun p => p.2),
      signalAttached := true, abortFiredAt := none, timerClearedAt := none }
  else
    match tb.settleAt with
    | some (t, out) =>
      if t < timeout then
        { result := some out, signalAttached := true,
          abortFiredAt := none, timerClearedAt := some t }
      else
        { result := some (Except.error "AbortError"), signalAttached := true,
          abortFiredAt := some timeout, timerClearedAt := some timeout }
    | none =>
      { result := some (Except.error "AbortError"), signalAttached := true,
        abortFiredAt := some timeout, timerClearedAt := some timeout }

/-- Which terminal projection a caller invokes on a resolver. -/
inductive TerminalChoice where
  | entity | void | raw
deriving Repr, DecidableEq

/-- The observable status carried by one terminal invocation on a resolver
(terminal methods are functions of the resolver alone: they have no access to
the transport). -/
def terminalStatus : TerminalChoice → RestResponseResolver → Except String Nat
  | .entity, res => ((RestResponseResolver.toEntity res).2).map (fun e => e.status)
  | .void, res => ((RestResponseResolver.toVoid res).2).map (fun w => w.status)
  | .raw, res => ((RestResponseResolver.toResponse res).2).map (fun r => r.status)

/-- A whole request scenario: one `retrieve()` followed by any sequence of
terminal invocations on the returned resolver. The first component is the
total number of transport invocations performed over the scenario; the second
collects each terminal call's observed status outcome. -/
def runScenario (b : RestRequestBuilder) (transport : Transport)
    (ts : List TerminalChoice) : Nat × List (Except String Nat) :=
  let out := RestRequestBuilder.retrieve b transport
  (out.2, ts.map (fun t => terminalStatus t out.1))

/-- A sample client configuration used by concrete witnesses. -/
def demoConfig : RestClientConfig :=
  { baseUrl := some "https://api.example.com",
    headers := some [("Authorization", "Bearer token")],
    timout := 10000, handler := none }

/-- A sample JSON 200 response used by concrete witnesses. -/
def demoResponse : FetchResponse :=
  { status := 200, headers := [("Content-Type", "application/json")],
    rtype := "basic", statusText := "OK", redirected := false,
    jsonResult := .ok (.vObj [("key", .vStr "value")]),
    textResult := "\x7b\"key\":\"value\"\x7d" }

/-- A 404 response declaring a JSON Content-Type whose body is not valid
JSON, so `response.json()` rejects. -/
def invalidJson404 : FetchResponse :=
  { status := 404, headers := [("Content-Type", "application/json")],
    rtype := "basic", statusText := "Not Found", redirected := false,
    jsonResult := .error "SyntaxError: Unexpected token",
    textResult := "<html>error</html>" }

/-- A plain-text 200 response used by concrete witnesses. -/
def plainTextResponse : FetchResponse :=
  { status := 200, headers := [("Content-Type", "text/plain")],
    rtype := "basic", statusText := "OK", redirected := false,
    jsonResult := .error "SyntaxError: Unexpected token",
    textResult := "plain" }

/-! ## Association-list lemmas for the JavaScript object model -/

theorem objGet_append (xs ys : Header) (k : String) :
    objGet (xs ++ ys) k = (objGet xs k).orElse (fun _ => objGet ys k) := by
  induction xs with
  | nil => simp [objGet]
  | cons p ps ih =>
    by_cases h : p.1 = k <;> simp [objGet, h, ih]

theorem mapSet_get_self (m : Header) (k v : String)
    (h : m.any (fun p => decide (p.1 = k)) = true) :
    objGet (m.map (fun p => if p.1 = k then (k, v) else p)) k = some v := by
  induction m with
  | nil => simp at h
  | cons p ps ih =>
    by_cases hp : p.1 = k
    · simp [objGet, hp]
    · have h' : ps.any (fun p => decide (p.1 = k)) = true := by
        simpa [List.any_cons, hp] using h
      simp [objGet, hp, ih h']

theorem mapSet_get_ne (m : Header) (k v k' : String) (h : k' ≠ k) :
    objGet (m.map (fun p => if p.1 = k then (k, v) else p)) k' = objGet m k' := by
  induction m with
  | nil => simp [objGet]
  | cons p ps ih =>
    by_cases hp : p.1 = k
    · have h2 : ¬ (p.1 = k') := fun hc => h (hc ▸ hp)
      simp [objGet, hp, h2, Ne.symm h, ih]
    · by_cases hp' : p.1 = k' <;> simp [objGet, hp, hp', h, ih]

theorem objGet_eq_none_iff (m : Header) (k : String) :
    objGet m k = none ↔ ∀ p ∈ m, p.1 ≠ k := by
  induction m with
  | nil => simp [objGet]
  | cons p ps ih =>
    by_cases hp : p.1 = k <;> simp [objGet, hp, ih]

theorem objSet_get_self (m : Header) (k v : String) : objGet (objSet m k v) k = some v := by
  unfold objSet
  split
  · exact mapSet_get_self m k v (by assumption)
  · rename_i h
    rw [Bool.not_eq_true, List.any_eq_false] at h
    have hnone : objGet m k = none := by
      rw [objGet_eq_none_iff]
      intro p hp
      simpa using h p hp
    rw [objGet_append, hnone]
    simp [objGet]

theorem objSet_get_ne (m : Header) (k v k' : String) (h : k' ≠ k) :
    objGet (objSet m k v) k' = objGet m k' := by
  unfold objSet
  split
  · exact mapSet_get_ne m k v k' h
  · rw [objGet_append]
    have h1 : objGet [(k, v)] k' = none := by simp [objGet, Ne.symm h]
    rw [h1]
    cases objGet m k' <;> rfl

theorem objSpread_get (a b : Header) (k : String) :
    objGet (objSpread a b) k = (objGet b.reverse k).orElse (fun _ => objGet a k) := by
  induction b generalizing a with
  | nil => simp [objSpread, objGet]
  | cons p bs ih =>
    show objGet (objSpread (objSet a p.1 p.2) bs) k = _
    rw [ih, List.reverse_cons, objGet_append]
    cases hbs : objGet bs.reverse k with
    | some w => simp
    | none =>
      by_cases hp : p.1 = k
      · subst hp
        simp [objGet, objSet_get_self]
      · simp [objGet, hp, objSet_get_ne a p.1 p.2 k (Ne.symm hp)]

theorem objGet_mem (m : Header) (k v : String) (h : objGet m k = some v) : (k, v) ∈ m := by
  induction m with
  | nil => simp [objGet] at h
  | cons p ps ih =>
    by_cases hp : p.1 = k
    · simp [objGet, hp] at h
      have : p = (k, v) := by
        cases p; simp_all
      simp [this]
    · simp [objGet, hp] at h
      exact List.mem_cons_of_mem _ (ih h)

theorem objGet_of_mem_nodup (m : Header) (k v : String)
    (hd : (m.map Prod.fst).Nodup) (hm : (k, v) ∈ m) : objGet m k = some v := by
  induction m with
  | nil => simp at hm
  | cons p ps ih =>
    rw [List.map_cons, List.nodup_cons] at hd
    rcases List.mem_cons.mp hm with h | h
    · subst h
      simp [objGet]
    · have hk : k ∈ ps.map Prod.fst := by
        simpa using List.mem_map_of_mem Prod.fst h
      have hp : p.1 ≠ k := fun he => hd.1 (he ▸ hk)
      simp only [objGet, hp, if_false]
      exact ih hd.2 h

theorem objGet_reverse_nodup (m : Header) (k : String) (hd : (m.map Prod.fst).Nodup) :
    objGet m.reverse k = objGet m k := by
  cases hm : objGet m k with
  | some v =>
    refine objGet_of_mem_nodup _ _ _ ?_ ?_
    · have he : List.map Prod.fst (List.reverse m) = (List.map Prod.fst m).reverse := by
        simp
      rw [he]
      exact (List.nodup_reverse).mpr hd
    · exact List.mem_reverse.mpr (objGet_mem m k v hm)
  | none =>
    rw [objGet_eq_none_iff] at hm ⊢
    intro p hp
    exact hm p (List.mem_reverse.mp hp)

theorem objSet_keys_nodup (m : Header) (k v : String)
    (h : (m.map Prod.fst).Nodup) : ((objSet m k v).map Prod.fst).Nodup := by
  unfold objSet
  split
  · rw [List.map_map]
    have he : m.map (Prod.fst ∘ fun p => if p.1 = k then (k, v) else p) = m.map Prod.fst := by
      apply List.map_congr_left
      intro p hp
      by_cases hpk : p.1 = k <;> simp [hpk]
    rw [he]
    exact h
  · rename_i hany
    rw [Bool.not_eq_true, List.any_eq_false] at hany
    rw [List.map_append, List.nodup_append]
    refine ⟨h, by simp, ?_⟩
    intro x hx
    simp only [List.map_cons, List.map_nil, List.mem_singleton]
    rcases List.mem_map.mp hx with ⟨p, hp, hpe⟩
    intro hc
    exact (by simpa using hany p hp : ¬ p.1 = k) (hpe.trans hc)

theorem objSpread_keys_nodup (a b : Header) (h : (a.map Prod.fst).Nodup) :
    ((objSpread a b).map Prod.fst).Nodup := by
  induction b generalizing a with
  | nil => exact h
  | cons p bs ih =>
    show ((objSpread (objSet a p.1 p.2) bs).map Prod.fst).Nodup
    exact ih _ (objSet_keys_nodup a p.1 p.2 h)

/-! ## String length facts for serialized output -/

theorem toDigitsCore_len (fuel n : Nat) (ds : List Char) :
    ds.length ≤ (Nat.toDigitsCore 10 fuel n ds).length := by
  induction fuel generalizing n ds with
  | zero => simp [Nat.toDigitsCore]
  | succ f ih =>
    rw [Nat.toDigitsCore]
    split
    · simp
    · exact le_trans (by simp) (ih _ _)

theorem natRepr_len (n : Nat) : 0 < (Nat.repr n).length := by
  show 0 < ((Nat.toDigits 10 n).asString).length
  rw [Nat.toDigits, Nat.toDigitsCore]
  split
  · simp
  · calc 0 < [(n % 10).digitChar].length := by simp
      _ ≤ _ := by
          simpa using toDigitsCore_len n (n / 10) [(n % 10).digitChar]

theorem intToString_len (n : Int) : 0 < (toString n).length := by
  cases n with
  | ofNat m => exact natRepr_len m
  | negSucc m =>
    show 0 < ("-" ++ Nat.repr (m + 1)).length
    rw [String.length_append]
    have := natRepr_len (m + 1)
    omega

theorem stringify_length_pos (v : JsValue) : 0 < (stringify v).length := by
  cases v with
  | vNull =>
    simp only [stringify]
    decide
  | vBool b =>
    cases b <;> simp only [stringify] <;> decide
  | vNum n => simpa [stringify] using intToString_len n
  | vStr s =>
    simp only [stringify, jsQuote, String.length_append]
    have h1 : (String.length "\"") = 1 := by decide
    omega
  | vArr xs =>
    simp only [stringify, String.length_append]
    have h1 : (String.length "[") = 1 := by decide
    omega
  | vObj fs =>
    simp only [stringify, String.length_append]
    have h1 : (String.length "\x7b") = 1 := by decide
    omega

theorem ne_empty_of_length_pos (s : String) (h : 0 < s.length) : s ≠ "" := by
  intro he
  subst he
  simp at h

theorem isEmpty_false_of_ne (s : String) (h : s ≠ "") : s.isEmpty = false := by
  cases he : s.isEmpty
  · rfl
  · exact absurd ((String.isEmpty_iff s).mp he) h

theorem stringify_isEmpty_false (v : JsValue) : (stringify v).isEmpty = false :=
  isEmpty_false_of_ne _ (ne_empty_of_length_pos _ (stringify_length_pos v))

/-- Helper: a key absent from an association list is absent from its reverse. -/
theorem objGet_reverse_none (m : Header) (k : String) (h : objGet m k = none) :
    objGet m.reverse k = none := by
  rw [objGet_eq_none_iff] at h ⊢
  intro p hp
  exact h p (List.mem_reverse.mp hp)

/-! ## Claim theorems -/

/-- Claim C1 (spec-modelled): with a configured timeout, a cancellation token
is created and its signal attached to the transport call; the deferred
cancellation fires after `timeout` ms and makes the future reject when the
call has not settled; it never fires once the call settled earlier, and the
deferred cancellation is cleared unconditionally at settlement (success,
failure or abort), so no dangling timer persists; a rejected pending response
rejects every terminal method of the resolver. -/
theorem timeout_cancellation (timeout : Nat) (tb : TransportBehavior)
    (hcfg : 0 < timeout) :
    (RestUtils.timedFetch timeout tb).signalAttached = true
    ∧ (∀ t out, tb.settleAt = some (t, out) → t < timeout →
        RestUtils.timedFetch timeout tb =
          { result := some out, signalAttached := true,
            abortFiredAt := none, timerClearedAt := some t })
    ∧ (∀ t out, tb.settleAt = some (t, out) → ¬ t < timeout →
        RestUtils.timedFetch timeout tb =
          { result := some (Except.error "AbortError"), signalAttached := true,
            abortFiredAt := some timeout, timerClearedAt := some timeout })
    ∧ (tb.settleAt = none →
        RestUtils.timedFetch timeout tb =
          { result := some (Except.error "AbortError"), signalAttached := true,
            abortFiredAt := some timeout, timerClearedAt := some timeout })
    ∧ ((RestUtils.timedFetch timeout tb).timerClearedAt).isSome = true
    ∧ (∀ e hd cv,
        (RestResponseResolver.toEntity
          { response := .error e, handler := hd, converter := cv }).2 = .error e
        ∧ (RestResponseResolver.toVoid
          { response := .error e, handler := hd, converter := cv }).2 = .error e
        ∧ (RestResponseResolver.toResponse
          { response := .error e, handler := hd, converter := cv }).2 = .error e) := by
  have h0 : (timeout == 0) = false := by
    simp
    omega
  refine ⟨?_, ?_, ?_, ?_, ?_, ?_⟩
  · cases hs : tb.settleAt with
    | none => simp [RestUtils.timedFetch, h0, hs]
    | some p =>
      rcases p with ⟨t, out⟩
      by_cases ht : t < timeout <;> simp [RestUtils.timedFetch, h0, hs, ht]
  · intro t out hs ht
    simp [RestUtils.timedFetch, h0, hs, ht]
  · intro t out hs ht
    simp [RestUtils.timedFetch, h0, hs, ht]
  · intro hs
    simp [RestUtils.timedFetch, h0, hs]
  · cases hs : tb.settleAt with
    | none => simp [RestUtils.timedFetch, h0, hs]
    | some p =>
      rcases p with ⟨t, out⟩
      by_cases ht : t < timeout <;> simp [RestUtils.timedFetch, h0, hs, ht]
  · intro e hd cv
    exact ⟨rfl, rfl, rfl⟩

/-- Claim C1 witness: a call settling at 50 ms with a 10000 ms timeout resolves
with the transport outcome, no abort fires, and the timer is cleared at 50. -/
theorem timeout_cancellation_witness :
    RestUtils.timedFetch 10000 ⟨some (50, .ok demoResponse)⟩ =
      { result := some (.ok demoResponse), signalAttached := true,
        abortFiredAt := none, timerClearedAt := some 50 } :=
  (timeout_cancellation 10000 ⟨some (50, .ok demoResponse)⟩ (by decide)).2.1
    50 (.ok demoResponse) rfl (by decide)

/-- Claim C2: URI assembly: with a truthy base URI the assembled URI is the
character-for-character concatenation of base and path (path alone when the
base is absent or empty); a non-empty parameter multi-map appends `?` and the
percent-encoded `key=value` pairs joined by `&` in insertion order with
repeated keys kept as separate pairs; an empty set appends no `?`. -/
theorem createURI_assembly (base path : String) (ps : List (String × String)) :
    (base ≠ "" →
      RestUtils.createURI (some base) path (some ps) =
        base ++ path ++ (if ps = [] then "" else "?" ++ paramsToString ps))
    ∧ (RestUtils.createURI none path (some ps) =
        path ++ (if ps = [] then "" else "?" ++ paramsToString ps))
    ∧ (RestUtils.createURI (some "") path (some ps) =
        path ++ (if ps = [] then "" else "?" ++ paramsToString ps))
    ∧ paramsToString ps =
        String.intercalate "&"
          (ps.map (fun p => formUrlEncode p.1 ++ "=" ++ formUrlEncode p.2)) := by
  refine ⟨?_, ?_, ?_, rfl⟩
  · intro hb
    have hne : base.isEmpty = false := isEmpty_false_of_ne base hb
    cases ps with
    | nil => simp [RestUtils.createURI, strTruthy, hne]
    | cons p tl => simp [RestUtils.createURI, strTruthy, hne, String.append_assoc]
  · cases ps with
    | nil => simp [RestUtils.createURI, strTruthy]
    | cons p tl => simp [RestUtils.createURI, strTruthy, String.append_assoc]
  · cases ps with
    | nil => simp [RestUtils.createURI, strTruthy]
    | cons p tl => simp [RestUtils.createURI, strTruthy, String.append_assoc]

/-- Claim C2 witness: the spec's own example input assembles as stated. -/
theorem createURI_assembly_witness :
    RestUtils.createURI (some "https://api.example.com") "/users/1" (some [("key", "value")]) =
      "https://api.example.com/users/1?key=value" := by
  have h := (createURI_assembly "https://api.example.com" "/users/1" [("key", "value")]).1
    (by decide)
  rw [h]
  rfl

/-- Claim C3 counterexample: on a client whose default headers bind
`Content-type` (here to `text/plain`), the headers seeded into a POST request
do not contain `Content-type: application/json` — the client-level spread
overrides the verb-injected pair, refuting the claim's "exactly when the verb
is POST, PUT, or PATCH". -/
theorem verb_header_injection_cex :
    objGet ((RestClient.post
        { baseUrl := none, headers := some [("Content-type", "text/plain")],
          timout := 10000, handler := none }).headers.getD []) "Content-type"
      = some "text/plain"
    ∧ some "text/plain" ≠ some "application/json" :=
  ⟨rfl, by decide⟩

/-- Claim C3 (amended): the transport headers are the spread of the builder's
default headers (first) and per-request headers (second), per-request wins on
exact-key collision; and provided the client-level default headers do not
themselves bind `Content-type`, the seeded request headers bind
`Content-type: application/json` exactly for POST/PUT/PATCH, and not for
GET/DELETE. -/
theorem headers_merge_and_verb_injection :
    (∀ b : RestRequestBuilder,
      (RestRequestRetriever.requestBodyOf b).headers =
        some (objSpread b._defaultHeaders b._headers))
    ∧ (∀ (dh ph : Header) (k v : String),
        (ph.map Prod.fst).Nodup → objGet ph k = some v →
        objGet (objSpread dh ph) k = some v)
    ∧ (∀ (ch : Header) (c : RestClientConfig),
        objGet ch "Content-type" = none → c.headers = some ch →
        objGet ((RestClient.post c).headers.getD []) "Content-type" = some "application/json"
        ∧ objGet ((RestClient.put c).headers.getD []) "Content-type" = some "application/json"
        ∧ objGet ((RestClient.patch c).headers.getD []) "Content-type" = some "application/json"
        ∧ objGet ((RestClient.get c).headers.getD []) "Content-type" = none
        ∧ objGet ((RestClient.delete c).headers.getD []) "Content-type" = none) := by
  refine ⟨fun b => rfl, ?_, ?_⟩
  · intro dh ph k v hnd hget
    rw [objSpread_get, objGet_reverse_nodup ph k hnd, hget]
    rfl
  · intro ch c hch hc
    have hrev : objGet ch.reverse "Content-type" = none := objGet_reverse_none ch _ hch
    have hinj : objGet (objSpread [RestClient.contentTypeJson] ch) "Content-type"
        = some "application/json" := by
      rw [objSpread_get, hrev]
      rfl
    have hplain : objGet (objSpread [] ch) "Content-type" = none := by
      rw [objSpread_get, hrev]
      rfl
    refine ⟨?_, ?_, ?_, ?_, ?_⟩ <;> simp [RestClient.post, RestClient.put, RestClient.patch,
      RestClient.get, RestClient.delete, hc] <;> first
        | exact hinj
        | exact hplain

/-- Claim C3 witness: per-request `Authorization` beats the client default,
and a collision-free client seeds `Content-type: application/json` on POST. -/
theorem headers_merge_and_verb_injection_witness :
    objGet (objSpread [("Authorization", "Bearer token")] [("Authorization", "Bearer other")])
        "Authorization" = some "Bearer other"
    ∧ objGet ((RestClient.post demoConfig).headers.getD []) "Content-type"
        = some "application/json" :=
  ⟨(headers_merge_and_verb_injection).2.1 [("Authorization", "Bearer token")]
      [("Authorization", "Bearer other")] "Authorization" "Bearer other"
      (by decide) (by decide),
   ((headers_merge_and_verb_injection).2.2 [("Authorization", "Bearer token")] demoConfig
      (by decide) rfl).1⟩

/-- Claim C4: `toEntity` decoding policy: when the response's `Content-Type`
header contains `application/json`, the parsed JSON body is assigned to
`data` with the converter applied when one is set and unchanged otherwise;
when the header is absent or lacks `application/json`, the body text is
assigned to `data` directly. -/
theorem toEntity_decoding (res : RestResponseResolver) (r : FetchResponse)
    (hresp : res.response = .ok r)
    (hok : (RestResponseResolver.invokeHandler res.handler r).2 = .ok ()) :
    (∀ ct j, headersGet r.headers "Content-Type" = some ct →
      strIncludes ct "application/json" = true →
      r.jsonResult = .ok j →
      (RestResponseResolver.toEntity res).2 =
        .ok { ResponseEntity.create r with
              data := some (match res.converter with | some f => f j | none => j) })
    ∧ (∀ ct, headersGet r.headers "Content-Type" = some ct →
        strIncludes ct "application/json" = false →
        (RestResponseResolver.toEntity res).2 =
          .ok { ResponseEntity.create r with data := some (.vStr r.textResult) })
    ∧ (headersGet r.headers "Content-Type" = none →
        (RestResponseResolver.toEntity res).2 =
          .ok { ResponseEntity.create r with data := some (.vStr r.textResult) }) := by
  refine ⟨?_, ?_, ?_⟩
  · intro ct j hct hinc hj
    cases hconv : res.converter with
    | some f => simp [RestResponseResolver.toEntity, hresp, hok, hct, hinc, hj, hconv]
    | none => simp [RestResponseResolver.toEntity, hresp, hok, hct, hinc, hj, hconv]
  · intro ct hct hinc
    simp [RestResponseResolver.toEntity, hresp, hok, hct, hinc]
  · intro hct
    simp [RestResponseResolver.toEntity, hresp, hok, hct]

/-- Claim C4 witness: a JSON 200 response decodes into its parsed object. -/
theorem toEntity_decoding_witness :
    (RestResponseResolver.toEntity
      { response := .ok demoResponse, handler := none, converter := none }).2
      = .ok { ResponseEntity.create demoResponse with
              data := some (.vObj [("key", .vStr "value")]) } := by
  have h := (toEntity_decoding
      { response := .ok demoResponse, handler := none, converter := none } demoResponse
      rfl rfl).1 "application/json" (.vObj [("key", .vStr "value")]) rfl rfl rfl
  simpa using h

/-- Claim C5 counterexample: a 404 response declaring JSON Content-Type with
an invalid JSON body makes `toEntity()` reject even with no inspector set, so
the claim's "each of toEntity(), toVoid(), and toResponse() resolves
successfully" does not hold for every response. -/
theorem status_passthrough_cex :
    invalidJson404.status = 404
    ∧ (RestResponseResolver.toEntity
        { response := .ok invalidJson404, handler := none, converter := none }).2
      = .error "SyntaxError: Unexpected token" :=
  ⟨rfl, rfl⟩

/-- Claim C5 (amended): no status-code validation: for every response and
every status (404 and 500 included), with no inspector or a non-throwing
inspector, `toVoid` and `toResponse` resolve carrying the response's status,
and `toEntity` does too provided the body decodes on the JSON branch — an
invalid JSON body on an application/json response rejects `toEntity`
regardless of status, exactly as it would for a 200. -/
theorem status_passthrough (res : RestResponseResolver) (r : FetchResponse)
    (hresp : res.response = .ok r)
    (hok : (RestResponseResolver.invokeHandler res.handler r).2 = .ok ()) :
    (∃ w, (RestResponseResolver.toVoid res).2 = .ok w ∧ w.status = r.status)
    ∧ (RestResponseResolver.toResponse res).2 = .ok r
    ∧ ((∀ ct, headersGet r.headers "Content-Type" = some ct →
          strIncludes ct "application/json" = true → ∃ j, r.jsonResult = .ok j) →
        ∃ e, (RestResponseResolver.toEntity res).2 = .ok e ∧ e.status = r.status) := by
  refine ⟨⟨ResponseVoid.create r, ?_, rfl⟩, ?_, ?_⟩
  · simp [RestResponseResolver.toVoid, hresp, hok]
  · simp [RestResponseResolver.toResponse, hresp, hok]
  · intro hdec
    cases hcase : headersGet r.headers "Content-Type" with
    | none =>
      refine ⟨{ ResponseEntity.create r with data := some (.vStr r.textResult) }, ?_, rfl⟩
      simp [RestResponseResolver.toEntity, hresp, hok, hcase]
    | some ct =>
      cases hinc : strIncludes ct "application/json" with
      | false =>
        refine ⟨{ ResponseEntity.create r with data := some (.vStr r.textResult) }, ?_, rfl⟩
        simp [RestResponseResolver.toEntity, hresp, hok, hcase, hinc]
      | true =>
        obtain ⟨j, hj⟩ := hdec ct hcase hinc
        cases hconv : res.converter with
        | none =>
          refine ⟨{ ResponseEntity.create r with data := some j }, ?_, rfl⟩
          simp [RestResponseResolver.toEntity, hresp, hok, hcase, hinc, hj, hconv]
        | some f =>
          refine ⟨{ ResponseEntity.create r with data := some (f j) }, ?_, rfl⟩
          simp [RestResponseResolver.toEntity, hresp, hok, hcase, hinc, hj, hconv]

/-- Claim C5 witness: the 404 response passes through `toVoid` and
`toResponse` carrying status 404 with no inspector set. -/
theorem status_passthrough_witness :
    (∃ w, (RestResponseResolver.toVoid
        { response := .ok invalidJson404, handler := none, converter := none }).2 = .ok w
      ∧ w.status = invalidJson404.status)
    ∧ (RestResponseResolver.toResponse
        { response := .ok invalidJson404, handler := none, converter := none }).2
      = .ok invalidJson404 :=
  ⟨(status_passthrough
      { response := .ok invalidJson404, handler := none, converter := none }
      invalidJson404 rfl rfl).1,
   (status_passthrough
      { response := .ok invalidJson404, handler := none, converter := none }
      invalidJson404 rfl rfl).2.1⟩

/-- Claim C6: with an inspector set, each terminal method invokes it exactly
once with the raw response (so each additional terminal call re-invokes it),
and a throwing inspector rejects that terminal call, aborting the projection
(no entity or void result is produced). -/
theorem inspector_policy (res : RestResponseResolver) (r : FetchResponse) (h : ResponseHandler)
    (hresp : res.response = .ok r) (hh : res.handler = some h) :
    ((RestResponseResolver.toEntity res).1 = [r]
      ∧ (RestResponseResolver.toVoid res).1 = [r]
      ∧ (RestResponseResolver.toResponse res).1 = [r])
    ∧ (∀ e, h r = .error e →
        (RestResponseResolver.toEntity res).2 = .error e
        ∧ (RestResponseResolver.toVoid res).2 = .error e
        ∧ (RestResponseResolver.toResponse res).2 = .error e) := by
  constructor
  · refine ⟨?_, ?_, ?_⟩
    · cases hout : h r with
      | error e =>
        simp [RestResponseResolver.toEntity, hresp, hh,
          RestResponseResolver.invokeHandler, hout]
      | ok u =>
        cases u
        cases hcase : headersGet r.headers "Content-Type" with
        | none =>
          simp [RestResponseResolver.toEntity, hresp, hh,
            RestResponseResolver.invokeHandler, hout, hcase]
        | some ct =>
          cases hinc : strIncludes ct "application/json" with
          | false =>
            simp [RestResponseResolver.toEntity, hresp, hh,
              RestResponseResolver.invokeHandler, hout, hcase, hinc]
          | true =>
            cases hj : r.jsonResult with
            | error e =>
              simp [RestResponseResolver.toEntity, hresp, hh,
                RestResponseResolver.invokeHandler, hout, hcase, hinc, hj]
            | ok j =>
              cases hconv : res.converter <;>
                simp [RestResponseResolver.toEntity, hresp, hh,
                  RestResponseResolver.invokeHandler, hout, hcase, hinc, hj, hconv]
    · cases hout : h r with
      | error e =>
        simp [RestResponseResolver.toVoid, hresp, hh,
          RestResponseResolver.invokeHandler, hout]
      | ok u =>
        cases u
        simp [RestResponseResolver.toVoid, hresp, hh,
          RestResponseResolver.invokeHandler, hout]
    · cases hout : h r with
      | error e =>
        simp [RestResponseResolver.toResponse, hresp, hh,
          RestResponseResolver.invokeHandler, hout]
      | ok u =>
        cases u
        simp [RestResponseResolver.toResponse, hresp, hh,
          RestResponseResolver.invokeHandler, hout]
  · intro e he
    refine ⟨?_, ?_, ?_⟩ <;>
      simp [RestResponseResolver.toEntity, RestResponseResolver.toVoid,
        RestResponseResolver.toResponse, hresp, hh, RestResponseResolver.invokeHandler, he]

/-- Claim C6 witness: a throwing inspector runs once with the raw 404 response
and its exception becomes the rejection of `toEntity`. -/
theorem inspector_policy_witness :
    (RestResponseResolver.toEntity
      { response := .ok invalidJson404,
        handler := some (fun _ => Except.error "status 404"), converter := none }).1
      = [invalidJson404]
    ∧ (RestResponseResolver.toEntity
      { response := .ok invalidJson404,
        handler := some (fun _ => Except.error "status 404"), converter := none }).2
      = .error "status 404" :=
  ⟨(inspector_policy _ invalidJson404 _ rfl rfl).1.1,
   ((inspector_policy _ invalidJson404 _ rfl rfl).2 "status 404" rfl).1⟩

/-- Claim C7: the transport call carries a body exactly when the builder's
stored body value is truthy: falsy or absent values attach none, a truthy
value attaches its JSON serialization, produced at dispatch time; in
particular `body(\x7bk:1\x7d)` attaches `'\x7b"k":1\x7d'`. -/
theorem body_attachment (b : RestRequestBuilder) :
    (jsTruthyOpt b._body = false →
      (RestUtils.buildRequestInit (RestRequestRetriever.requestBodyOf b)).body = none)
    ∧ (∀ v, b._body = some v → jsTruthy v = true →
      (RestUtils.buildRequestInit (RestRequestRetriever.requestBodyOf b)).body
        = some (stringify v))
    ∧ stringify (.vObj [("k", .vNum 1)]) = "\x7b\"k\":1\x7d" := by
  refine ⟨?_, ?_, rfl⟩
  · intro hf
    cases hb : b._body with
    | none => simp [RestUtils.buildRequestInit, RestRequestRetriever.requestBodyOf, hb]
    | some v =>
      have hv : jsTruthy v = false := by simpa [jsTruthyOpt, hb] using hf
      simp [RestUtils.buildRequestInit, RestRequestRetriever.requestBodyOf, hb, hv]
  · intro v hv ht
    simp [RestUtils.buildRequestInit, RestRequestRetriever.requestBodyOf, hv, ht,
      stringify_isEmpty_false]

/-- Claim C7 witness: a POST builder with body `\x7bk:1\x7d` hands
`'\x7b"k":1\x7d'` to the transport call. -/
theorem body_attachment_witness :
    (RestUtils.buildRequestInit (RestRequestRetriever.requestBodyOf
      (RestRequestBuilder.body
        (RestRequestBuilder.uri (RestRequestBuilder.create (RestClient.post demoConfig)) "/test")
        (some (.vObj [("k", .vNum 1)]))))).body = some "\x7b\"k\":1\x7d" := by
  rw [(body_attachment _).2.1 (.vObj [("k", .vNum 1)]) rfl rfl]
  rfl

/-- Claim C8: single transport invocation: a whole scenario of one
`retrieve()` followed by any sequence of terminal invocations performs exactly
one transport call; `retrieve` memoizes the call's settled outcome in the
resolver, and every terminal invocation is a function of that same memoized
outcome alone. -/
theorem single_transport_invocation (b : RestRequestBuilder) (transport : Transport)
    (ts : List TerminalChoice) :
    (runScenario b transport ts).1 = 1
    ∧ (RestRequestBuilder.retrieve b transport).1 =
      { response := (RestUtils.performFetch (RestRequestRetriever.requestBodyOf b) transport).1,
        handler := b._handler, converter := none }
    ∧ (runScenario b transport ts).2 =
      ts.map (fun t => terminalStatus t
        { response := (RestUtils.performFetch
            (RestRequestRetriever.requestBodyOf b) transport).1,
          handler := b._handler, converter := none }) :=
  ⟨rfl, rfl, rfl⟩

/-- Helper: assigning under key `k` leaves reverse-lookups of any other exact
key unchanged (`objSet` only touches entries keyed `k`). -/
theorem objSet_reverse_get_ne (m : Header) (k v k' : String) (h : k' ≠ k) :
    objGet (objSet m k v).reverse k' = objGet m.reverse k' := by
  unfold objSet
  split
  · have he : (List.map (fun p => if p.1 = k then (k, v) else p) m).reverse
        = m.reverse.map (fun p => if p.1 = k then (k, v) else p) := by simp
    rw [he]
    exact mapSet_get_ne m.reverse k v k' h
  · simp [List.reverse_append, objGet, Ne.symm h]

/-- Helper: spreading per-request headers that bind `Content-Type` (and never
the exact key `Content-type`) over defaults binding
`Content-type: application/json` keeps both entries reachable. -/
theorem spread_case_sensitive_core (dh hs : Header) (v : String)
    (hdh : objGet dh "Content-type" = some "application/json")
    (hhs : objGet hs "Content-type" = none) :
    objGet (objSpread dh (objSet (objSpread [] hs) "Content-Type" v)) "Content-type"
        = some "application/json"
    ∧ objGet (objSpread dh (objSet (objSpread [] hs) "Content-Type" v)) "Content-Type"
        = some v := by
  set ph := objSet (objSpread [] hs) "Content-Type" v with hph
  have hph0 : objGet (objSpread [] hs) "Content-type" = none := by
    rw [objSpread_get, objGet_reverse_none hs _ hhs]
    rfl
  have hphnone : objGet ph "Content-type" = none := by
    rw [hph, objSet_get_ne _ _ _ _ (by decide)]
    exact hph0
  have hphnodup : (ph.map Prod.fst).Nodup := by
    rw [hph]
    exact objSet_keys_nodup _ _ _ (objSpread_keys_nodup [] hs (by simp))
  constructor
  · rw [objSpread_get, objGet_reverse_none ph _ hphnone]
    exact hdh
  · rw [objSpread_get, objGet_reverse_nodup ph _ hphnodup, hph, objSet_get_self]
    rfl

/-- Claim C9 counterexample: a POST request whose client defaults bind
`Content-type: text/plain`, with the caller setting per-request
`Content-Type: text/xml`: the merged transport header map carries
`Content-type: text/plain`, not the claimed `Content-type: application/json`
entry — the client-level spread replaced the verb-injected pair before the
per-request headers were merged, refuting the claim as stated over every
POST/PUT/PATCH request. -/
theorem case_sensitive_merge_cex :
    objGet ((RestRequestRetriever.requestBodyOf
        (RestRequestBuilder.header
          (RestRequestBuilder.create (RestClient.post
            { baseUrl := none, headers := some [("Content-type", "text/plain")],
              timout := 10000, handler := none }))
          "Content-Type" "text/xml")).headers.getD []) "Content-type"
      = some "text/plain"
    ∧ some "text/plain" ≠ some "application/json"
    ∧ objGet ((RestRequestRetriever.requestBodyOf
        (RestRequestBuilder.header
          (RestRequestBuilder.create (RestClient.post
            { baseUrl := none, headers := some [("Content-type", "text/plain")],
              timout := 10000, handler := none }))
          "Content-Type" "text/xml")).headers.getD []) "Content-Type"
      = some "text/xml" :=
  ⟨rfl, by decide, rfl⟩

/-- Claim C9 (amended): header merging compares keys as exact case-sensitive
strings: setting a per-request `Content-Type` header never changes the merged
map's `Content-type` entry (it is not replaced, whatever its value); and on
every POST/PUT/PATCH request where the caller sets a per-request
`Content-Type` header, provided neither the client-level defaults nor the
other per-request headers bind the exact key `Content-type`, the merged
transport header map contains both the verb-injected
`Content-type: application/json` entry and the caller's `Content-Type`
entry. -/
theorem case_sensitive_merge_amended (ch hs : Header) (v : String) (c : RestClientConfig)
    (hc : c.headers = some ch)
    (hch : objGet ch "Content-type" = none)
    (hhs : objGet hs "Content-type" = none) :
    (∀ (b : RestRequestBuilder) (w : String),
      objGet ((RestRequestRetriever.requestBodyOf
          (RestRequestBuilder.header b "Content-Type" w)).headers.getD []) "Content-type"
        = objGet ((RestRequestRetriever.requestBodyOf b).headers.getD []) "Content-type")
    ∧ (∀ setup : RequestSetup,
        setup = RestClient.post c ∨ setup = RestClient.put c ∨ setup = RestClient.patch c →
        ∀ b : RestRequestBuilder,
          b = RestRequestBuilder.header
                (RestRequestBuilder.headers (RestRequestBuilder.create setup) hs)
                "Content-Type" v →
          objGet ((RestRequestRetriever.requestBodyOf b).headers.getD []) "Content-type"
              = some "application/json"
          ∧ objGet ((RestRequestRetriever.requestBodyOf b).headers.getD []) "Content-Type"
              = some v) := by
  have hgd : c.headers.getD [] = ch := by
    rw [hc]
    rfl
  have hinj : objGet (objSpread [RestClient.contentTypeJson] ch) "Content-type"
      = some "application/json" := by
    rw [objSpread_get, objGet_reverse_none ch _ hch]
    rfl
  refine ⟨?_, ?_⟩
  · intro b w
    show objGet (objSpread b._defaultHeaders (objSet b._headers "Content-Type" w)) "Content-type"
        = objGet (objSpread b._defaultHeaders b._headers) "Content-type"
    rw [objSpread_get, objSpread_get, objSet_reverse_get_ne _ _ _ _ (by decide)]
  · intro setup hsetup b hb
    rcases hsetup with h | h | h
    · subst h
      subst hb
      show objGet (objSpread (objSpread [RestClient.contentTypeJson] (c.headers.getD []))
            (objSet (objSpread [] hs) "Content-Type" v)) "Content-type"
          = some "application/json"
        ∧ objGet (objSpread (objSpread [RestClient.contentTypeJson] (c.headers.getD []))
            (objSet (objSpread [] hs) "Content-Type" v)) "Content-Type"
          = some v
      rw [hgd]
      exact spread_case_sensitive_core _ hs v hinj hhs
    · subst h
      subst hb
      show objGet (objSpread (objSpread [RestClient.contentTypeJson] (c.headers.getD []))
            (objSet (objSpread [] hs) "Content-Type" v)) "Content-type"
          = some "application/json"
        ∧ objGet (objSpread (objSpread [RestClient.contentTypeJson] (c.headers.getD []))
            (objSet (objSpread [] hs) "Content-Type" v)) "Content-Type"
          = some v
      rw [hgd]
      exact spread_case_sensitive_core _ hs v hinj hhs
    · subst h
      subst hb
      show objGet (objSpread (objSpread [RestClient.contentTypeJson] (c.headers.getD []))
            (objSet (objSpread [] hs) "Content-Type" v)) "Content-type"
          = some "application/json"
        ∧ objGet (objSpread (objSpread [RestClient.contentTypeJson] (c.headers.getD []))
            (objSet (objSpread [] hs) "Content-Type" v)) "Content-Type"
          = some v
      rw [hgd]
      exact spread_case_sensitive_core _ hs v hinj hhs

/-- Claim C9 witness: a caller `Content-Type: text/xml` on a PUT request from
a collision-free client coexists with the verb-injected
`Content-type: application/json`. -/
theorem case_sensitive_merge_amended_witness :
    objGet ((RestRequestRetriever.requestBodyOf
        (RestRequestBuilder.header
          (RestRequestBuilder.headers
            (RestRequestBuilder.create (RestClient.put demoConfig)) [])
          "Content-Type" "text/xml")).headers.getD []) "Content-type"
      = some "application/json"
    ∧ objGet ((RestRequestRetriever.requestBodyOf
        (RestRequestBuilder.header
          (RestRequestBuilder.headers
            (RestRequestBuilder.create (RestClient.put demoConfig)) [])
          "Content-Type" "text/xml")).headers.getD []) "Content-Type"
      = some "text/xml" :=
  (case_sensitive_merge_amended [("Authorization", "Bearer token")] [] "text/xml" demoConfig
    rfl (by decide) (by decide)).2 (RestClient.put demoConfig) (Or.inr (Or.inl rfl)) _ rfl

/-- Claim C10: the converter applies only on the JSON decoding branch: with
any converter set, a response whose Content-Type is absent or lacks
`application/json` yields the raw body text in `data`, and the outcome is
identical to the converter-free resolver's — the converter is never
invoked. -/
theorem converter_skipped_on_text (res : RestResponseResolver) (r : FetchResponse)
    (f : ResponseConverter)
    (hresp : res.response = .ok r)
    (hok : (RestResponseResolver.invokeHandler res.handler r).2 = .ok ())
    (hct : ∀ ct, headersGet r.headers "Content-Type" = some ct →
      strIncludes ct "application/json" = false) :
    (RestResponseResolver.toEntity (RestResponseResolver.setConverter res f)).2 =
      .ok { ResponseEntity.create r with data := some (.vStr r.textResult) }
    ∧ (RestResponseResolver.toEntity (RestResponseResolver.setConverter res f)).2 =
      (RestResponseResolver.toEntity { res with converter := none }).2 := by
  cases hcase : headersGet r.headers "Content-Type" with
  | none =>
    constructor <;>
      simp [RestResponseResolver.toEntity, RestResponseResolver.setConverter, hresp, hok, hcase]
  | some ct =>
    have hf := hct ct hcase
    constructor <;>
      simp [RestResponseResolver.toEntity, RestResponseResolver.setConverter, hresp, hok,
        hcase, hf]

/-- Claim C10 witness: with a converter set, a `text/plain` response still
yields the raw body text. -/
theorem converter_skipped_on_text_witness :
    (RestResponseResolver.toEntity
      (RestResponseResolver.setConverter
        { response := .ok plainTextResponse, handler := none, converter := none }
        (fun _ => .vNull))).2
      = .ok { ResponseEntity.create plainTextResponse with data := some (.vStr "plain") } := by
  have h := (converter_skipped_on_text
    { response := .ok plainTextResponse, handler := none, converter := none }
    plainTextResponse (fun _ => .vNull) rfl rfl ?hct).1
  · exact h
  case hct =>
    intro ct hcteq
    have h3 : "text/plain" = ct := by
      injection (show (some "text/plain" : Option String) = some ct from hcteq)
    subst h3
    decide
